import Mathlib

/-!
Verification of the Forest Guardian frontend reconciliation core.

The definitions below are a shallow embedding of the JavaScript source:
- src/frontend/src/hooks/useImageProcessing.js (upload + per-image polling),
- the useReportsData hook (report fetching, silent refresh, addNewReport,
  processPendingImages, the 30-second auto-refresh guard),
- the api.js service (uploadImages and friends),
- src/frontend/src/pages/Reports.jsx (refresh call sites, spinner gate).

Network interaction is modelled by oracles: a status-poll oracle maps an
attempt index to the outcome of one awaited request, either a thrown
exception (Except.error) or a parsed JSON response (Except.ok).  JavaScript
falsy-defaulting (x || d) is modelled by jsOr / Option.getD.  Awaited calls
inside one async function run strictly sequentially, so the polling phase is
a fold that also records a trace of request and timer events.
-/

namespace ForestGuardian

/-- JS (x || d) on an optional string: null/undefined and the empty string
are falsy and fall back to the default. -/
def jsOr (o : Option String) (d : String) : String :=
  match o with
  | some s => if s = "" then d else s
  | none => d

/-- JS (x || null) on an optional string: empty string collapses to null. -/
def jsOrNull (o : Option String) : Option String :=
  match o with
  | some s => if s = "" then none else some s
  | none => none

/-- List-of-characters version of JS String.startsWith. -/
def charsStartsWith : List Char → List Char → Bool
  | _, [] => true
  | [], _ :: _ => false
  | c :: cs, p :: ps => c == p && charsStartsWith cs ps

/-- List-of-characters version of JS String.includes. -/
def charsContains : List Char → List Char → Bool
  | [], pat => pat.isEmpty
  | c :: cs, pat => charsStartsWith (c :: cs) pat || charsContains cs pat

/-- List-of-characters version of JS String.replace with a string pattern:
only the first occurrence is replaced. -/
def charsReplaceFirst : List Char → List Char → List Char → List Char
  | [], _, _ => []
  | c :: cs, pat, repl =>
    if charsStartsWith (c :: cs) pat then repl ++ (c :: cs).drop pat.length
    else c :: charsReplaceFirst cs pat repl

/-- JS String.trim; the labels in this code base only ever carry plain
spaces, which is the whitespace modelled here. -/
def charsTrim (s : List Char) : List Char :=
  ((s.dropWhile (fun c => c == ' ')).reverse.dropWhile (fun c => c == ' ')).reverse

/-- JS label.charAt(0).toUpperCase() + label.slice(1). -/
def capitalizeStr : List Char → String
  | [] => ""
  | c :: cs => String.mk (c.toUpper :: cs)

/-- JS Set insertion: dedupe, keep first-insertion order. -/
def insertUnique (l : List String) (x : String) : List String :=
  if x ∈ l then l else l ++ [x]

/-- One detection entry of the prediction payload (results.detections). -/
structure Detection where
  label : Option String
deriving DecidableEq, Repr

/-- The results object of GET /api/v1/predict/:id/results; every field that
the frontend reads optionally is an Option here. -/
structure PredictionResults where
  average_confidence : Option ℚ
  num_detections : Option ℕ
  processing_time : Option ℚ
  detections : Option (List Detection)
  error : Option String
deriving DecidableEq, Repr

/-- A parsed response of GET /api/v1/predict/:id/results. -/
structure PredictionResponse where
  success : Bool
  status : String
  results : PredictionResults
  results_url : Option String
deriving DecidableEq, Repr

def acaciaChars : List Char := ['a', 'c', 'a', 'c', 'i', 'a']

/-- One fold step of extractSpeciesFromDetections in useImageProcessing.js:
lower-case the label, branch on whether it mentions acacia, and insert the
derived species name into the set. -/
def speciesAccum (acc : List String) (d : Detection) : List String :=
  let label := (jsOr d.label "").data.map Char.toLower
  if charsContains label acaciaChars then
    let speciesName := charsTrim (charsReplaceFirst label acaciaChars [])
    if speciesName.isEmpty then insertUnique acc "Acacia"
    else insertUnique acc ("Acacia " ++ String.mk speciesName)
  else if label.isEmpty then acc
  else insertUnique acc (capitalizeStr label)

/-- extractSpeciesFromDetections from useImageProcessing.js. -/
def extractSpeciesFromDetections (detections : List Detection) : List String :=
  detections.foldl speciesAccum []

/-- A locally selected image as tracked by useImageProcessing.js state
(the fields touched by the upload and polling phases). -/
structure SelectedImage where
  name : String
  preview : String
  file : String
  uploaded : Bool
  imageId : Option String
deriving DecidableEq, Repr

/-- A processed-result record as pushed onto processedResults. -/
structure RealResult where
  id : ℕ
  inputImage : String
  inputName : String
  outputImage : String
  outputName : String
  originalFile : String
  confidence : ℚ
  detectedAreas : ℕ
  processingTime : ℚ
  species : List String
  status : String
  error : Option String
deriving DecidableEq, Repr

/-- The realResult record built at useImageProcessing.js lines 270-283 when
a poll response is success together with status processed or failed. -/
def mkRealResult (img : SelectedImage) (resultIdx : ℕ) (resp : PredictionResponse) : RealResult :=
  { id := resultIdx
  , inputImage := img.preview
  , inputName := img.name
  , outputImage := jsOr resp.results_url img.preview
  , outputName := "processed_" ++ img.name
  , originalFile := img.file
  , confidence := resp.results.average_confidence.getD 0
  , detectedAreas := resp.results.num_detections.getD 0
  , processingTime := resp.results.processing_time.getD 0
  , species := extractSpeciesFromDetections (resp.results.detections.getD [])
  , status := resp.status
  , error := jsOrNull resp.results.error }

/-- The fallback errorResults built at useImageProcessing.js lines 313-326
when the whole batch produced no real result: every selected image gets a
record with status failed and zeroed numeric fields. -/
def errorResultsOf (selected : List SelectedImage) : List RealResult :=
  selected.enum.map (fun p =>
    { id := p.1
    , inputImage := p.2.preview
    , inputName := p.2.name
    , outputImage := p.2.preview
    , outputName := "processed_" ++ p.2.name
    , originalFile := p.2.file
    , confidence := 0
    , detectedAreas := 0
    , processingTime := 0
    , species := []
    , status := "failed"
    , error := some "API not configured or processing failed" })

/-- Observable events of the polling phase: an awaited status request for an
image, or the awaited 2000 ms timer between two requests for an image. -/
inductive PollEvent where
  | statusRequest (imageId : String)
  | wait2000 (imageId : String)
deriving DecidableEq, Repr

def PollEvent.imgOf : PollEvent → String
  | .statusRequest i => i
  | .wait2000 i => i

def isStatusRequest : PollEvent → Bool
  | PollEvent.statusRequest _ => true
  | PollEvent.wait2000 _ => false

def isRequestFor (id : String) : PollEvent → Bool
  | PollEvent.statusRequest i => i == id
  | PollEvent.wait2000 _ => false

def isWaitEvent : PollEvent → Bool
  | PollEvent.wait2000 _ => true
  | PollEvent.statusRequest _ => false

/-- maxAttempts = 30 in useImageProcessing.js line 262. -/
def maxAttempts : ℕ := 30

/-- The setTimeout delay between two status requests (line 291). -/
def pollDelayMs : ℕ := 2000

/-- Outcome of one image's polling loop: the awaited-event trace, the pushed
result if a terminal response arrived, and the final attempts counter. -/
structure PollRun where
  trace : List PollEvent
  result : Option RealResult
  attempts : ℕ
deriving DecidableEq, Repr

/-- The while loop of useImageProcessing.js lines 264-297.  fuel is the
number of loop iterations still allowed (maxAttempts minus the attempts
counter a); the oracle gives the awaited outcome of the request issued with
attempts counter a.  A thrown request (catch) breaks out immediately; a
success response with status processed or failed breaks with a result; any
other response is followed by the awaited 2000 ms timer and a retry. -/
def pollAttempts (oracle : ℕ → Except String PredictionResponse) (img : SelectedImage)
    (imageId : String) (resultIdx : ℕ) : ℕ → ℕ → PollRun
  | 0, a => ⟨[], none, a⟩
  | fuel + 1, a =>
    match oracle a with
    | Except.error _ => ⟨[PollEvent.statusRequest imageId], none, a⟩
    | Except.ok resp =>
      if resp.success && (resp.status == "processed" || resp.status == "failed") then
        ⟨[PollEvent.statusRequest imageId], some (mkRealResult img resultIdx resp), a⟩
      else
        let rest := pollAttempts oracle img imageId resultIdx fuel (a + 1)
        ⟨PollEvent.statusRequest imageId :: PollEvent.wait2000 imageId :: rest.trace,
         rest.result, rest.attempts⟩

/-- One image's polling loop started with attempts = 0 and the full budget. -/
def pollImage (oracle : ℕ → Except String PredictionResponse) (img : SelectedImage)
    (imageId : String) (resultIdx : ℕ) : PollRun :=
  pollAttempts oracle img imageId resultIdx maxAttempts 0

/-- Outcome of the whole polling phase over a batch. -/
structure BatchRun where
  trace : List PollEvent
  results : List RealResult
  warnings : List String
deriving DecidableEq, Repr

/-- The for-loop of useImageProcessing.js lines 259-303: images are polled
one after another (each loop body is fully awaited before the next image is
considered); images without an imageId are skipped; a timeout warning is
recorded when the attempts budget was exhausted.  acc threads the
realResults list, whose length supplies the id of the next pushed result. -/
def pollAllImages (oracle : String → ℕ → Except String PredictionResponse) :
    List SelectedImage → List RealResult → BatchRun
  | [], _ => ⟨[], [], []⟩
  | img :: rest, acc =>
    match img.imageId with
    | none => pollAllImages oracle rest acc
    | some id =>
      let run := pollAttempts (oracle id) img id acc.length maxAttempts 0
      let warn := if maxAttempts ≤ run.attempts then [img.name] else []
      match run.result with
      | some r =>
        let restRun := pollAllImages oracle rest (acc ++ [r])
        ⟨run.trace ++ restRun.trace, r :: restRun.results, warn ++ restRun.warnings⟩
      | none =>
        let restRun := pollAllImages oracle rest acc
        ⟨run.trace ++ restRun.trace, restRun.results, warn ++ restRun.warnings⟩

/-- The tail of handleAuthenticatedProcessing (lines 256-330): poll the
uploaded images of the selected list; if any real result was obtained append
them to the previous processedResults, otherwise append the fallback
errorResults built from every selected image.  The second component is the
list of timeout warnings. -/
def finalProcessedResults (selected : List SelectedImage) (prevResults : List RealResult)
    (oracle : String → ℕ → Except String PredictionResponse) :
    List RealResult × List String :=
  let uploadedImages := selected.filter (fun img => img.uploaded)
  let batch := pollAllImages oracle uploadedImages []
  if batch.results.length > 0 then (prevResults ++ batch.results, batch.warnings)
  else (prevResults ++ errorResultsOf selected, batch.warnings)

/-- A file handed to the upload service. -/
structure UploadFile where
  name : String
deriving DecidableEq, Repr

/-- The HTTP request issued by uploadImages: the target url and the
multipart form-data entries in insertion order. -/
structure UploadRequest where
  url : String
  formDataEntries : List (String × String)
deriving DecidableEq, Repr

/-- uploadImages from api.js: it is declared with a single files parameter;
the FormData receives one files entry per file and nothing else before the
POST to /api/v1/upload. -/
def uploadImages (files : List UploadFile) : UploadRequest :=
  { url := "/api/v1/upload"
  , formDataEntries := files.map (fun f => ("files", f.name)) }

/-- A call site such as useImageProcessing.js line 196 or Reports.jsx line
169 invokes uploadImages(files, submissionId).  JavaScript discards extra
arguments beyond a function's declared parameters, so the call is just
uploadImages(files). -/
def uploadImagesCall (files : List UploadFile) (submissionId : Option String) : UploadRequest :=
  uploadImages files

/-- One image record inside a report (shape built by addNewReport and read
by Reports.jsx and processPendingImages). -/
structure ReportImage where
  image_id : String
  input_name : String
  inputImage : String
  outputImage : String
  status : String
  confidence : ℚ
  detectedAreas : ℕ
  processingTime : ℚ
  species : List String
  created_at : String
deriving DecidableEq, Repr

/-- A report (submission group) of the Report Collection. -/
structure Report where
  id : ℕ
  submission_id : String
  date : String
  time : String
  image_count : ℕ
  total_detected_areas : ℕ
  average_confidence : ℚ
  status : String
  images : List ReportImage
deriving DecidableEq, Repr

/-- A parsed response of GET /api/v1/reports. -/
structure ReportsResponse where
  success : Bool
  reports : Option (List Report)
  message : Option String
deriving DecidableEq, Repr

/-- The useReportsData state cells touched by the fetch paths. -/
structure ReportsState where
  reports : List Report
  isLoading : Bool
  error : Option String
  lastFetchTime : Option ℕ
deriving DecidableEq, Repr

/-- fetchReports from the useReportsData hook.  The outcome argument is the
awaited getUserReports call (a thrown error or a parsed response).  The
returned Bool records whether isLoading was raised during the call: the
function sets it before the try block whenever the user is logged in and
clears it in finally, so the final state always has isLoading false on that
path.  When not logged in the function only clears the reports list. -/
def fetchReports (isLoggedIn : Bool) (outcome : Except String ReportsResponse)
    (now : ℕ) (st : ReportsState) : ReportsState × Bool :=
  if !isLoggedIn then
    ({ st with reports := [] }, false)
  else
    match outcome with
    | Except.ok resp =>
      if resp.success then
        ({ st with error := none, reports := resp.reports.getD [],
                   lastFetchTime := some now, isLoading := false }, true)
      else
        ({ st with error := some (jsOr resp.message "Failed to fetch reports"),
                   reports := [], isLoading := false }, true)
    | Except.error e =>
      ({ st with error := some e, reports := [], isLoading := false }, true)

/-- silentRefreshReports from the useReportsData hook: same reconciliation
as fetchReports but it never touches isLoading (the returned Bool is the
same was-loading-raised flag, here always false). -/
def silentRefreshReports (isLoggedIn : Bool) (outcome : Except String ReportsResponse)
    (now : ℕ) (st : ReportsState) : ReportsState × Bool :=
  if !isLoggedIn then
    ({ st with reports := [] }, false)
  else
    match outcome with
    | Except.ok resp =>
      if resp.success then
        ({ st with error := none, reports := resp.reports.getD [],
                   lastFetchTime := some now }, false)
      else
        ({ st with error := some (jsOr resp.message "Failed to fetch reports"),
                   reports := [] }, false)
    | Except.error e =>
      ({ st with error := some e, reports := [] }, false)

/-- The message recorded when a fetch fails: the thrown error text, or for a
response with success false the thrown Error(response.message || default). -/
def fetchFailureMessage : Except String ReportsResponse → Option String
  | Except.error e => some e
  | Except.ok r => if r.success then none else some (jsOr r.message "Failed to fetch reports")

/-- The refresh call sites of the source: the 30-second interval in
useReportsData calls fetchReports; handleAddPhotosSubmit in Reports.jsx
calls refreshReports (a plain delegate to fetchReports) immediately after
the upload and silentRefreshReports from a 3000 ms timer; the retry button
calls refreshReports. -/
inductive RefreshTrigger where
  | auto30s
  | addPhotosImmediate
  | addPhotosDelayed3s
  | manualRetry
deriving DecidableEq, Repr

/-- Dispatch a refresh trigger to the fetch path the source wires it to. -/
def runRefresh (t : RefreshTrigger) (isLoggedIn : Bool)
    (outcome : Except String ReportsResponse) (now : ℕ) (st : ReportsState) :
    ReportsState × Bool :=
  match t with
  | RefreshTrigger.auto30s => fetchReports isLoggedIn outcome now st
  | RefreshTrigger.addPhotosImmediate => fetchReports isLoggedIn outcome now st
  | RefreshTrigger.addPhotosDelayed3s => silentRefreshReports isLoggedIn outcome now st
  | RefreshTrigger.manualRetry => fetchReports isLoggedIn outcome now st

/-- The full-page spinner gate of Reports.jsx line 393: it renders when auth
is still being checked, when not logged in, or when isLoading is set. -/
def reportsPageShowsSpinner (isCheckingAuth isLoggedIn isLoading : Bool) : Bool :=
  isCheckingAuth || !isLoggedIn || isLoading

/-- The hasProcessingReports test of the auto-refresh effect: some report
has some image whose status is uploaded or processing. -/
def hasProcessingReports (reports : List Report) : Bool :=
  reports.any (fun r => r.images.any (fun img =>
    img.status == "uploaded" || img.status == "processing"))

/-- Whether the auto-refresh effect installs the 30-second interval: it
returns early when not logged in, otherwise schedules iff
hasProcessingReports holds. -/
def autoRefreshScheduled (isLoggedIn : Bool) (reports : List Report) : Bool :=
  isLoggedIn && hasProcessingReports reports

/-- The interval period of the auto-refresh effect. -/
def autoRefreshIntervalMs : ℕ := 30000

/-- One entry of uploadResponse.results handed to addNewReport. -/
structure UploadResultItem where
  image_id : String
  original_filename : Option String
  s3_url : String
  date : Option String
  submission_id : Option String
deriving DecidableEq, Repr

/-- The per-image record addNewReport builds from an upload result. -/
def uploadItemToReportImage (nowIso : String) (img : UploadResultItem) : ReportImage :=
  { image_id := img.image_id
  , input_name := jsOr img.original_filename "unknown"
  , inputImage := img.s3_url
  , outputImage := img.s3_url
  , status := "uploaded"
  , confidence := 0
  , detectedAreas := 0
  , processingTime := 0
  , species := []
  , created_at := nowIso }

/-- addNewReport from the useReportsData hook: for a non-empty batch it
builds a report whose id is Date.now() (nowMs), whose submission_id is the
first image's image_id, with status processing and every image in status
uploaded with zeroed numerics, and prepends it to the collection.  dateStr,
timeStr and nowIso are the formatted clock values the source derives from
new Date(). -/
def addNewReport (newImages : List UploadResultItem) (nowMs : ℕ)
    (dateStr timeStr nowIso : String) (prevReports : List Report) : List Report :=
  match newImages with
  | [] => prevReports
  | first :: _ =>
    let newReport : Report :=
      { id := nowMs
      , submission_id := first.image_id
      , date := dateStr
      , time := timeStr
      , image_count := newImages.length
      , total_detected_areas := 0
      , average_confidence := 0
      , status := "processing"
      , images := newImages.map (uploadItemToReportImage nowIso) }
    newReport :: prevReports

/-- The image update applied by processPendingImages when a poll response is
success with status processed (part of the useReportsData hook): numeric
fields default to zero via JS ||, the output image falls back to the input
image, and no other field (in particular not species) is touched. -/
def updateImageProcessed (resp : PredictionResponse) (img : ReportImage) : ReportImage :=
  { img with
    status := "processed"
  , confidence := resp.results.average_confidence.getD 0
  , detectedAreas := resp.results.num_detections.getD 0
  , processingTime := resp.results.processing_time.getD 0
  , outputImage := jsOr resp.results_url img.inputImage }

/-- One loop body of processPendingImages for the image with the given id
inside the report with the given id: a success and processed response
patches the image in place; a thrown request marks the image failed; any
other response leaves the state unchanged. -/
def processPendingImagesStep (reportId : ℕ) (imageId : String)
    (outcome : Except String PredictionResponse) (reports : List Report) : List Report :=
  match outcome with
  | Except.ok resp =>
    if resp.success && resp.status == "processed" then
      reports.map (fun r =>
        if r.id == reportId then
          { r with images := r.images.map (fun img =>
              if img.image_id == imageId then updateImageProcessed resp img else img) }
        else r)
    else reports
  | Except.error _ =>
    reports.map (fun r =>
      if r.id == reportId then
        { r with images := r.images.map (fun img =>
            if img.image_id == imageId then { img with status := "failed" } else img) }
      else r)

/-- processPendingImages: iterate over the images of the report that are
still in status uploaded, awaiting one combined prediction outcome per
image (runPrediction, the 2000 ms wait and getPredictionResults are awaited
in sequence; the oracle is their combined outcome). -/
def processPendingImages (oracle : String → Except String PredictionResponse)
    (report : Report) (reports : List Report) : List Report :=
  let pending := report.images.filter (fun img => img.status == "uploaded")
  pending.foldl (fun rs img =>
    processPendingImagesStep report.id img.image_id (oracle img.image_id) rs) reports

def emptyResults : PredictionResults :=
  { average_confidence := none, num_detections := none, processing_time := none
  , detections := none, error := none }

def respProcessing : PredictionResponse :=
  { success := true, status := "processing", results := emptyResults, results_url := none }

def respProcessed : PredictionResponse :=
  { success := true, status := "processed", results := emptyResults, results_url := none }

def imgA : SelectedImage :=
  { name := "a.jpg", preview := "blob:a", file := "file-a", uploaded := true
  , imageId := some "img-a" }

def imgB : SelectedImage :=
  { name := "b.jpg", preview := "blob:b", file := "file-b", uploaded := true
  , imageId := some "img-b" }

def oracleFast : String → ℕ → Except String PredictionResponse :=
  fun _ _ => Except.ok respProcessed

def oracleSlowA : String → ℕ → Except String PredictionResponse :=
  fun id n =>
    if id == "img-a" then
      (if n < 2 then Except.ok respProcessing else Except.ok respProcessed)
    else Except.ok respProcessed

def requestCount (t : List PollEvent) : ℕ := (t.filter isStatusRequest).length

def waitsBeforeFirstRequest (t : List PollEvent) (id : String) : ℕ :=
  ((t.takeWhile (fun e => !(isRequestFor id e))).filter isWaitEvent).length

def oracleAlwaysProcessing : String → ℕ → Except String PredictionResponse :=
  fun _ _ => Except.ok respProcessing

def respNoSuccessProcessed : PredictionResponse :=
  { success := false, status := "processed", results := emptyResults, results_url := none }

def oracleNoSuccess : ℕ → Except String PredictionResponse :=
  fun _ => Except.ok respNoSuccessProcessed

def detAcacia : Detection := ⟨some "acacia"⟩

end ForestGuardian

namespace ForestGuardian

/-- A poll outcome that stops the loop with a result: a response whose
success flag is set and whose status is processed or failed. -/
def isSuccessTerminal : Except String PredictionResponse → Bool
  | Except.ok r => r.success && (r.status == "processed" || r.status == "failed")
  | Except.error _ => false

/-- A poll outcome that keeps the loop going: a response (no exception) that
does not satisfy the terminal test. -/
def isOkNonTerminal : Except String PredictionResponse → Bool
  | Except.ok r => !(r.success && (r.status == "processed" || r.status == "failed"))
  | Except.error _ => false

/-- Shape check of a per-image trace: it is a run of status requests for
this image with exactly one 2000 ms wait between two consecutive requests
(and possibly one trailing wait when the budget ran out). -/
def alternatingTrace (id : String) : List PollEvent → Bool
  | [] => true
  | [PollEvent.statusRequest i] => i == id
  | PollEvent.statusRequest i :: PollEvent.wait2000 j :: rest =>
    i == id && (j == id && alternatingTrace id rest)
  | _ => false

/-- k request-wait pairs for one image. -/
def pairTrace (id : String) : ℕ → List PollEvent
  | 0 => []
  | k + 1 => PollEvent.statusRequest id :: PollEvent.wait2000 id :: pairTrace id k


def oracleStep : ℕ → Except String PredictionResponse :=
  fun n => if n = 0 then Except.ok respProcessing else Except.ok respProcessed

def respOkReports : ReportsResponse :=
  { success := true, reports := some [], message := none }

def st0 : ReportsState :=
  { reports := [], isLoading := false, error := none, lastFetchTime := none }

def repA : Report :=
  { id := 1, submission_id := "img-1", date := "2025-10-10", time := "12:00"
  , image_count := 1, total_detected_areas := 0, average_confidence := 0
  , status := "processing", images := [] }

def upItem1 : UploadResultItem :=
  { image_id := "img-1", original_filename := some "x.jpg", s3_url := "s3://x"
  , date := none, submission_id := none }

def upItem2 : UploadResultItem :=
  { image_id := "img-2", original_filename := some "y.jpg", s3_url := "s3://y"
  , date := none, submission_id := none }

def rimg0 : ReportImage :=
  { image_id := "img-1", input_name := "x.jpg", inputImage := "s3://x"
  , outputImage := "s3://x", status := "uploaded", confidence := 0
  , detectedAreas := 0, processingTime := 0, species := []
  , created_at := "2025-10-11T00:00:00Z" }

def rimgProcessing : ReportImage := { rimg0 with status := "processing" }

def repProcessing : Report :=
  { repA with id := 7, submission_id := "s-7", images := [rimgProcessing] }

def repB : Report :=
  { id := 5, submission_id := "s-5", date := "2025-10-10", time := "12:00"
  , image_count := 1, total_detected_areas := 0, average_confidence := 0
  , status := "processing", images := [rimg0] }

def stCached : ReportsState :=
  { reports := [repProcessing], isLoading := false, error := none, lastFetchTime := none }

def resultsAcacia : PredictionResults :=
  { average_confidence := some 1, num_detections := some 1, processing_time := some 1
  , detections := some [detAcacia], error := none }

def respAcacia : PredictionResponse :=
  { success := true, status := "processed", results := resultsAcacia
  , results_url := some "s3://out" }

def oracleProcA : ℕ → Except String PredictionResponse :=
  fun _ => Except.ok respProcessing

lemma successTerminal_cond {resp : PredictionResponse}
    (h : isSuccessTerminal (Except.ok resp) = true) :
    (resp.success && (resp.status == "processed" || resp.status == "failed")) = true := h

lemma okNonTerminal_not_cond {resp : PredictionResponse}
    (h : isOkNonTerminal (Except.ok resp) = true) :
    ¬((resp.success && (resp.status == "processed" || resp.status == "failed")) = true) := by
  have hb : (!(resp.success && (resp.status == "processed" || resp.status == "failed"))) = true := h
  simp only [Bool.not_eq_true'] at hb
  simp [hb]

lemma requestCount_cons_req (i : String) (t : List PollEvent) :
    requestCount (PollEvent.statusRequest i :: t) = requestCount t + 1 := by
  simp [requestCount, isStatusRequest]

lemma requestCount_cons_wait (i : String) (t : List PollEvent) :
    requestCount (PollEvent.wait2000 i :: t) = requestCount t := by
  simp [requestCount, isStatusRequest]

lemma requestCount_pairTrace (id : String) : ∀ k, requestCount (pairTrace id k) = k := by
  intro k
  induction k with
  | zero => rfl
  | succ n ih => simp [pairTrace, requestCount_cons_req, requestCount_cons_wait, ih]

lemma requestCount_append (s t : List PollEvent) :
    requestCount (s ++ t) = requestCount s + requestCount t := by
  simp [requestCount, List.filter_append]

lemma requestCount_pollAttempts_le (oracle : ℕ → Except String PredictionResponse)
    (img : SelectedImage) (id : String) (idx : ℕ) :
    ∀ fuel a, requestCount (pollAttempts oracle img id idx fuel a).trace ≤ fuel := by
  intro fuel
  induction fuel with
  | zero => intro a; simp [pollAttempts, requestCount]
  | succ n ih =>
    intro a
    cases ho : oracle a with
    | error e =>
      simp [pollAttempts, ho, requestCount, isStatusRequest]
    | ok resp =>
      by_cases hc : (resp.success && (resp.status == "processed" || resp.status == "failed")) = true
      · simp [pollAttempts, ho, hc, requestCount, isStatusRequest]
      · have hle := ih (a + 1)
        simp only [pollAttempts, ho]
        rw [if_neg hc]
        simp only [requestCount_cons_req, requestCount_cons_wait]
        omega

lemma alternatingTrace_pollAttempts (oracle : ℕ → Except String PredictionResponse)
    (img : SelectedImage) (id : String) (idx : ℕ) :
    ∀ fuel a, alternatingTrace id (pollAttempts oracle img id idx fuel a).trace = true := by
  intro fuel
  induction fuel with
  | zero => intro a; rfl
  | succ n ih =>
    intro a
    cases ho : oracle a with
    | error e => simp [pollAttempts, ho, alternatingTrace]
    | ok resp =>
      by_cases hc : (resp.success && (resp.status == "processed" || resp.status == "failed")) = true
      · simp [pollAttempts, ho, hc, alternatingTrace]
      · simp only [pollAttempts, ho]
        rw [if_neg hc]
        simp [alternatingTrace, ih (a + 1)]

lemma pollAttempts_stops_at_first_success_terminal
    (oracle : ℕ → Except String PredictionResponse) (img : SelectedImage)
    (id : String) (idx : ℕ) :
    ∀ k fuel a, k < fuel →
      (∀ i, i < k → isOkNonTerminal (oracle (a + i)) = true) →
      isSuccessTerminal (oracle (a + k)) = true →
      ∃ r, oracle (a + k) = Except.ok r ∧
        pollAttempts oracle img id idx fuel a =
          ⟨pairTrace id k ++ [PollEvent.statusRequest id],
           some (mkRealResult img idx r), a + k⟩ := by
  intro k
  induction k with
  | zero =>
    intro fuel a hk hpre hterm
    obtain ⟨f, rfl⟩ : ∃ f, fuel = f + 1 := ⟨fuel - 1, by omega⟩
    rw [Nat.add_zero] at hterm ⊢
    cases ho : oracle a with
    | error e => rw [ho] at hterm; simp [isSuccessTerminal] at hterm
    | ok resp =>
      rw [ho] at hterm
      have hc := successTerminal_cond hterm
      refine ⟨resp, rfl, ?_⟩
      simp only [pollAttempts, ho]
      rw [if_pos hc]
      simp [pairTrace]
  | succ kk ih =>
    intro fuel a hk hpre hterm
    obtain ⟨f, rfl⟩ : ∃ f, fuel = f + 1 := ⟨fuel - 1, by omega⟩
    have h0 : isOkNonTerminal (oracle a) = true := by
      have := hpre 0 (by omega)
      simpa using this
    cases ho : oracle a with
    | error e => rw [ho] at h0; simp [isOkNonTerminal] at h0
    | ok resp =>
      rw [ho] at h0
      have hc := okNonTerminal_not_cond h0
      have hterm' : isSuccessTerminal (oracle ((a + 1) + kk)) = true := by
        rw [show (a + 1) + kk = a + (kk + 1) by omega]; exact hterm
      have hpre' : ∀ i, i < kk → isOkNonTerminal (oracle ((a + 1) + i)) = true := by
        intro i hi
        rw [show (a + 1) + i = a + (i + 1) by omega]
        exact hpre (i + 1) (by omega)
      obtain ⟨r, hr, heq⟩ := ih f (a + 1) (by omega) hpre' hterm'
      refine ⟨r, ?_, ?_⟩
      · rw [show a + (kk + 1) = (a + 1) + kk by omega]; exact hr
      · simp only [pollAttempts, ho]
        rw [if_neg hc]
        rw [heq]
        simp [pairTrace, PollRun.mk.injEq, List.cons_append] <;> omega

lemma pollAttempts_all_nonterminal (oracle : ℕ → Except String PredictionResponse)
    (img : SelectedImage) (id : String) (idx : ℕ) :
    ∀ fuel a, (∀ i, i < fuel → isOkNonTerminal (oracle (a + i)) = true) →
      pollAttempts oracle img id idx fuel a = ⟨pairTrace id fuel, none, a + fuel⟩ := by
  intro fuel
  induction fuel with
  | zero => intro a h; simp [pollAttempts, pairTrace]
  | succ n ih =>
    intro a h
    have h0 : isOkNonTerminal (oracle a) = true := by
      have := h 0 (by omega)
      simpa using this
    cases ho : oracle a with
    | error e => rw [ho] at h0; simp [isOkNonTerminal] at h0
    | ok resp =>
      rw [ho] at h0
      have hc := okNonTerminal_not_cond h0
      simp only [pollAttempts, ho]
      rw [if_neg hc]
      rw [ih (a + 1) (fun i hi => by
        rw [show (a + 1) + i = a + (i + 1) by omega]
        exact h (i + 1) (by omega))]
      simp [pairTrace, PollRun.mk.injEq] <;> omega

lemma pollAttempts_idx_indep (oracle : ℕ → Except String PredictionResponse)
    (img : SelectedImage) (id : String) (idx1 idx2 : ℕ) :
    ∀ fuel a,
      (pollAttempts oracle img id idx1 fuel a).trace = (pollAttempts oracle img id idx2 fuel a).trace
      ∧ (pollAttempts oracle img id idx1 fuel a).attempts = (pollAttempts oracle img id idx2 fuel a).attempts
      ∧ (pollAttempts oracle img id idx1 fuel a).result.isSome = (pollAttempts oracle img id idx2 fuel a).result.isSome := by
  intro fuel
  induction fuel with
  | zero => intro a; exact ⟨rfl, rfl, rfl⟩
  | succ n ih =>
    intro a
    cases ho : oracle a with
    | error e => simp [pollAttempts, ho]
    | ok resp =>
      by_cases hc : (resp.success && (resp.status == "processed" || resp.status == "failed")) = true
      · simp [pollAttempts, ho, hc]
      · obtain ⟨ht, ha, hs⟩ := ih (a + 1)
        simp only [pollAttempts, ho]
        rw [if_neg hc, if_neg hc]
        exact ⟨by rw [ht], by rw [ha], by rw [hs]⟩

lemma pollAttempts_trace_imgOf (oracle : ℕ → Except String PredictionResponse)
    (img : SelectedImage) (id : String) (idx : ℕ) :
    ∀ fuel a e, e ∈ (pollAttempts oracle img id idx fuel a).trace → e.imgOf = id := by
  intro fuel
  induction fuel with
  | zero => intro a e h; simp [pollAttempts] at h
  | succ n ih =>
    intro a e h
    cases ho : oracle a with
    | error er =>
      simp [pollAttempts, ho] at h
      simp [h, PollEvent.imgOf]
    | ok resp =>
      by_cases hc : (resp.success && (resp.status == "processed" || resp.status == "failed")) = true
      · simp [pollAttempts, ho, hc] at h
        simp [h, PollEvent.imgOf]
      · simp only [pollAttempts, ho] at h
        rw [if_neg hc] at h
        simp at h
        rcases h with h | h | h
        · simp [h, PollEvent.imgOf]
        · simp [h, PollEvent.imgOf]
        · exact ih (a + 1) e h

lemma pollAllImages_acc_indep (oracle : String → ℕ → Except String PredictionResponse) :
    ∀ (l : List SelectedImage) (acc1 acc2 : List RealResult),
      (pollAllImages oracle l acc1).trace = (pollAllImages oracle l acc2).trace
      ∧ (pollAllImages oracle l acc1).warnings = (pollAllImages oracle l acc2).warnings := by
  intro l
  induction l with
  | nil => intro acc1 acc2; exact ⟨rfl, rfl⟩
  | cons img rest ih =>
    intro acc1 acc2
    simp only [pollAllImages]
    cases img.imageId with
    | none => exact ih acc1 acc2
    | some id =>
      obtain ⟨ht, ha, hs⟩ :=
        pollAttempts_idx_indep (oracle id) img id acc1.length acc2.length maxAttempts 0
      cases h1 : (pollAttempts (oracle id) img id acc1.length maxAttempts 0).result with
      | some r1 =>
        cases h2 : (pollAttempts (oracle id) img id acc2.length maxAttempts 0).result with
        | some r2 =>
          obtain ⟨ht', hw'⟩ := ih (acc1 ++ [r1]) (acc2 ++ [r2])
          simp only [h1, h2]
          exact ⟨by rw [ht, ht'], by rw [ha, hw']⟩
        | none => rw [h1, h2] at hs; simp at hs
      | none =>
        cases h2 : (pollAttempts (oracle id) img id acc2.length maxAttempts 0).result with
        | some r2 => rw [h1, h2] at hs; simp at hs
        | none =>
          obtain ⟨ht', hw'⟩ := ih acc1 acc2
          simp only [h1, h2]
          exact ⟨by rw [ht, ht'], by rw [ha, hw']⟩

end ForestGuardian

namespace ForestGuardian

/-- C1: the claim says every upload call carrying a non-null submission
identifier puts that identifier into the issued request.  The api.js
uploadImages function is declared with only a files parameter, so the
identifier passed by the callers is discarded: the issued request for
files = [a.jpg] and submissionId = sub-1 contains only files entries and no
entry whose value is the identifier. -/
theorem upload_request_omits_submission_id :
    (uploadImagesCall [⟨"a.jpg"⟩] (some "sub-1")).formDataEntries = [("files", "a.jpg")]
    ∧ ((uploadImagesCall [⟨"a.jpg"⟩] (some "sub-1")).formDataEntries.filter
        (fun e => e.2 == "sub-1")) = [] := by
  decide

/-- C2 counterexample: polling is not concurrent.  Two oracles that give
image img-b identical answers (one immediately terminal request) but differ
on img-a (terminal at once versus terminal after two retries) produce
different schedules for img-b: with the slow img-a, two 2000 ms waits of
img-a elapse before the first and only request of img-b is issued, so
img-a's polling delays img-b's. -/
theorem second_image_poll_delayed_by_first :
    waitsBeforeFirstRequest (pollAllImages oracleFast [imgA, imgB] []).trace "img-b" = 0
    ∧ waitsBeforeFirstRequest (pollAllImages oracleSlowA [imgA, imgB] []).trace "img-b" = 2
    ∧ ((pollAllImages oracleFast [imgA, imgB] []).trace.filter (isRequestFor "img-b")).length = 1
    ∧ ((pollAllImages oracleSlowA [imgA, imgB] []).trace.filter (isRequestFor "img-b")).length = 1 := by
  decide

/-- C2 (amended): the per-image polling loops run sequentially in upload
order, not concurrently: the global awaited-event trace of a batch is the
trace of the first image's whole polling loop followed by the trace of the
remaining images, and every event of that first loop belongs to the first
image.  Polling of a later image therefore starts only after every request
and wait of the earlier image has completed. -/
theorem poll_loops_sequential_per_image
    (oracle : String → ℕ → Except String PredictionResponse)
    (img : SelectedImage) (rest : List SelectedImage) (id : String)
    (hid : img.imageId = some id) :
    (pollAllImages oracle (img :: rest) []).trace
      = (pollImage (oracle id) img id 0).trace ++ (pollAllImages oracle rest []).trace
    ∧ ∀ e ∈ (pollImage (oracle id) img id 0).trace, e.imgOf = id := by
  constructor
  · simp only [pollAllImages, hid, List.length_nil, pollImage]
    cases h1 : (pollAttempts (oracle id) img id 0 maxAttempts 0).result with
    | some r =>
      simp only [h1]
      have := (pollAllImages_acc_indep oracle rest ([] ++ [r]) []).1
      rw [this]
    | none =>
      simp only [h1]
  · intro e he
    exact pollAttempts_trace_imgOf (oracle id) img id 0 maxAttempts 0 e he

/-- C2 witness: the sequential decomposition evaluated at the concrete
two-image batch used in the counterexample. -/
theorem poll_loops_sequential_per_image_witness :
    (pollAllImages oracleSlowA [imgA, imgB] []).trace
      = (pollImage (oracleSlowA "img-a") imgA "img-a" 0).trace
        ++ (pollAllImages oracleSlowA [imgB] []).trace :=
  (poll_loops_sequential_per_image oracleSlowA imgA [imgB] "img-a" rfl).1

/-- C3 counterexample: a refresh triggered by the 30-second scheduler, and
the refresh issued immediately after appending photos, both run the visible
fetch path and raise the isLoading flag that gates the full-page spinner. -/
theorem auto_and_append_refresh_set_isLoading :
    (runRefresh RefreshTrigger.auto30s true (Except.ok respOkReports) 0 st0).2 = true
    ∧ (runRefresh RefreshTrigger.addPhotosImmediate true (Except.ok respOkReports) 0 st0).2 = true
    ∧ reportsPageShowsSpinner false true true = true := by
  decide

/-- C3 (amended): only the delayed (3000 ms) refresh after appending photos
uses the silent fetch variant, which never raises isLoading; the 30-second
automatic refresh and the immediate after-append refresh call the visible
fetchReports path, which raises isLoading whenever the user is logged in,
and a raised isLoading makes Reports.jsx render the blocking spinner. -/
theorem refresh_loading_visibility_by_trigger
    (isLoggedIn : Bool) (o : Except String ReportsResponse) (now : ℕ) (st : ReportsState) :
    (runRefresh RefreshTrigger.addPhotosDelayed3s isLoggedIn o now st).2 = false
    ∧ (runRefresh RefreshTrigger.auto30s true o now st).2 = true
    ∧ (runRefresh RefreshTrigger.addPhotosImmediate true o now st).2 = true
    ∧ reportsPageShowsSpinner false true true = true := by
  refine ⟨?_, ?_, ?_, rfl⟩
  · show (silentRefreshReports isLoggedIn o now st).2 = false
    cases isLoggedIn with
    | false => rfl
    | true =>
      cases o with
      | error e => rfl
      | ok resp =>
        by_cases h : resp.success = true
        · simp [silentRefreshReports, h]
        · simp [silentRefreshReports, h]
  · show (fetchReports true o now st).2 = true
    cases o with
    | error e => rfl
    | ok resp =>
      by_cases h : resp.success = true
      · simp [fetchReports, h]
      · simp [fetchReports, h]
  · show (fetchReports true o now st).2 = true
    cases o with
    | error e => rfl
    | ok resp =>
      by_cases h : resp.success = true
      · simp [fetchReports, h]
      · simp [fetchReports, h]

/-- C3 witness: the trigger dispatch evaluated at a concrete state. -/
theorem refresh_loading_visibility_by_trigger_witness :
    (runRefresh RefreshTrigger.addPhotosDelayed3s true (Except.ok respOkReports) 0 st0).2 = false :=
  (refresh_loading_visibility_by_trigger true (Except.ok respOkReports) 0 st0).1

/-- C4 counterexample: the loop does not stop as soon as a response reports
a terminal status; it also requires the success flag.  Under an oracle that
always answers success = false with status processed, the very first
response reports status processed, yet the loop issues all 30 requests and
produces no result. -/
theorem poll_continues_on_unsuccessful_terminal_response :
    respNoSuccessProcessed.status = "processed"
    ∧ respNoSuccessProcessed.success = false
    ∧ requestCount (pollImage oracleNoSuccess imgA "img-a" 0).trace = 30
    ∧ (pollImage oracleNoSuccess imgA "img-a" 0).result = none := by
  decide

/-- C4 (amended): for every image polled, the loop issues at most 30 status
requests, its awaited-event trace alternates one 2000 ms wait between two
consecutive requests (so no request is issued while a prior one is
outstanding), and it stops, emitting the terminal result record, as soon as
a response whose success flag is set reports status processed or failed:
if the first k responses are non-terminal and the response at attempt k is
success-terminal, exactly k + 1 requests are issued. -/
theorem poll_bounded_paced_stops_on_success_terminal
    (oracle : ℕ → Except String PredictionResponse) (img : SelectedImage)
    (id : String) (idx : ℕ) :
    requestCount (pollImage oracle img id idx).trace ≤ maxAttempts
    ∧ alternatingTrace id (pollImage oracle img id idx).trace = true
    ∧ ∀ k, k < maxAttempts →
        (∀ i, i < k → isOkNonTerminal (oracle i) = true) →
        isSuccessTerminal (oracle k) = true →
        requestCount (pollImage oracle img id idx).trace = k + 1
        ∧ ∃ r, oracle k = Except.ok r
            ∧ (pollImage oracle img id idx).result = some (mkRealResult img idx r) := by
  refine ⟨requestCount_pollAttempts_le oracle img id idx maxAttempts 0,
          alternatingTrace_pollAttempts oracle img id idx maxAttempts 0, ?_⟩
  intro k hk hpre hterm
  obtain ⟨r, hr, heq⟩ := pollAttempts_stops_at_first_success_terminal oracle img id idx k
    maxAttempts 0 hk (fun i hi => by simpa using hpre i hi) (by simpa using hterm)
  refine ⟨?_, r, by simpa using hr, ?_⟩
  · rw [pollImage, heq]
    show requestCount (pairTrace id k ++ [PollEvent.statusRequest id]) = k + 1
    rw [requestCount_append, requestCount_pairTrace]
    rfl
  · rw [pollImage, heq]

/-- C4 witness: under an oracle that is non-terminal once and then
success-terminal, the loop issues exactly two requests. -/
theorem poll_bounded_paced_stops_on_success_terminal_witness :
    requestCount (pollImage oracleStep imgA "img-a" 0).trace = 2 := by
  have h := (poll_bounded_paced_stops_on_success_terminal oracleStep imgA "img-a" 0).2.2 1
    (by decide)
    (fun i hi => by
      have hi0 : i = 0 := by omega
      subst hi0
      rfl)
    (by decide)
  exact h.1

/-- C5 counterexample: budget exhaustion can force failed.  With a single
image whose status stays processing for every check, the timeout warning is
emitted, but because the batch then has no real result the fallback path
appends an error record with status failed for the image. -/
theorem all_timeout_batch_forced_failed :
    ((finalProcessedResults [imgA] [] oracleAlwaysProcessing).1.map (fun r => r.status)) = ["failed"]
    ∧ (finalProcessedResults [imgA] [] oracleAlwaysProcessing).2 = ["a.jpg"] := by
  decide

/-- C5 (amended): an image whose 30 polls are all non-terminal produces no
per-image result (its record is left untouched) and its attempts counter
reaches the budget, which emits the timeout warning; but when the whole
batch produced no terminal result, the fallback creates error records with
status failed for every selected image. -/
theorem timeout_emits_warning_without_result
    (oracle : ℕ → Except String PredictionResponse) (img : SelectedImage)
    (id : String) (idx : ℕ)
    (hall : ∀ i, i < maxAttempts → isOkNonTerminal (oracle i) = true)
    (hid : img.imageId = some id) (hup : img.uploaded = true) :
    (pollImage oracle img id idx).result = none
    ∧ (pollImage oracle img id idx).attempts = maxAttempts
    ∧ (pollAllImages (fun _ => oracle) [img] []).warnings = [img.name]
    ∧ (pollAllImages (fun _ => oracle) [img] []).results = []
    ∧ ∀ prev, finalProcessedResults [img] prev (fun _ => oracle)
        = (prev ++ errorResultsOf [img], [img.name]) := by
  have hnt : ∀ a, (∀ i, i < maxAttempts → isOkNonTerminal (oracle (a + i)) = true) → True :=
    fun _ _ => trivial
  have hrun : ∀ j, pollAttempts oracle img id j maxAttempts 0
      = ⟨pairTrace id maxAttempts, none, 0 + maxAttempts⟩ := by
    intro j
    exact pollAttempts_all_nonterminal oracle img id j maxAttempts 0
      (fun i hi => by simpa using hall i hi)
  have hbatch : pollAllImages (fun _ => oracle) [img] []
      = ⟨pairTrace id maxAttempts, [], [img.name]⟩ := by
    simp only [pollAllImages, hid, List.length_nil]
    simp only [hrun 0]
    simp [maxAttempts]
  refine ⟨?_, ?_, ?_, ?_, ?_⟩
  · rw [pollImage, hrun idx]
  · rw [pollImage, hrun idx]
    simp
  · rw [hbatch]
  · rw [hbatch]
  · intro prev
    simp only [finalProcessedResults]
    rw [List.filter_cons_of_pos (by simpa using hup)]
    simp only [List.filter_nil]
    rw [hbatch]
    simp

/-- C5 witness: the timeout behavior evaluated for a concrete image under
the always-processing oracle. -/
theorem timeout_emits_warning_without_result_witness :
    finalProcessedResults [imgA] [] (fun _ => oracleProcA)
      = ([] ++ errorResultsOf [imgA], [imgA.name]) :=
  (timeout_emits_warning_without_result oracleProcA imgA "img-a" 0
    (fun _ _ => rfl) rfl rfl).2.2.2.2 []

/-- C6 counterexample: reconciliation does not guarantee at most one report
per submission identifier.  Starting from a collection that already holds a
report with submission identifier img-1, addNewReport for a batch whose
first image has image_id img-1 prepends a second report with the same
identifier. -/
theorem addNewReport_can_duplicate_submission_id :
    ((addNewReport [upItem1] 99 "2025-10-11" "12:30" "2025-10-11T12:30:00Z" [repA]).map
        (fun r => r.submission_id)) = ["img-1", "img-1"]
    ∧ ¬ (((addNewReport [upItem1] 99 "2025-10-11" "12:30" "2025-10-11T12:30:00Z" [repA]).map
        (fun r => r.submission_id)).Nodup) := by
  constructor
  · decide
  · decide

/-- C6 (amended): no reconciliation operation deduplicates.  addNewReport
preserves submission-identifier uniqueness only when the first new image's
identifier is fresh with respect to the current collection, and a
successful fetch replaces the collection verbatim with the server list, so
uniqueness after a fetch is exactly the uniqueness of that list. -/
theorem reconciliation_nodup_under_freshness
    (first : UploadResultItem) (rest : List UploadResultItem) (prev : List Report)
    (nowMs : ℕ) (dateStr timeStr nowIso : String)
    (hnodup : (prev.map (fun r => r.submission_id)).Nodup)
    (hfresh : first.image_id ∉ prev.map (fun r => r.submission_id)) :
    ((addNewReport (first :: rest) nowMs dateStr timeStr nowIso prev).map
        (fun r => r.submission_id)).Nodup
    ∧ ∀ (resp : ReportsResponse) (now : ℕ) (st : ReportsState), resp.success = true →
        (fetchReports true (Except.ok resp) now st).1.reports = resp.reports.getD [] := by
  constructor
  · simp only [addNewReport, List.map_cons, List.nodup_cons]
    exact ⟨hfresh, hnodup⟩
  · intro resp now st h
    simp [fetchReports, h]

/-- C6 witness: freshness does preserve uniqueness on a concrete state. -/
theorem reconciliation_nodup_under_freshness_witness :
    ((addNewReport [upItem2] 99 "2025-10-11" "12:30" "iso" [repA]).map
        (fun r => r.submission_id)).Nodup :=
  (reconciliation_nodup_under_freshness upItem2 [] [repA] 99 "2025-10-11" "12:30" "iso"
    (by decide) (by decide)).1

/-- C7 counterexample: the report-refresh poller does not populate the
species list from the payload.  For a processed response whose detections
carry an acacia label, updateImageProcessed leaves the image's species list
at its prior empty value even though the payload-derived species list is
[Acacia]; the same holds through a full processPendingImagesStep. -/
theorem refresh_poller_drops_species_payload :
    (updateImageProcessed respAcacia rimg0).species = []
    ∧ extractSpeciesFromDetections (respAcacia.results.detections.getD []) = ["Acacia"]
    ∧ (updateImageProcessed respAcacia rimg0).status = "processed"
    ∧ ((processPendingImagesStep 5 "img-1" (Except.ok respAcacia) [repB]).map
        (fun r => r.images.map (fun i => i.species))) = [[[]]] := by
  refine ⟨by decide, by decide, by decide, by decide⟩

/-- C7 (amended): on a terminal processed response, numeric fields are
defaulted to zero when missing from the payload in both poll paths, and the
output image falls back to the input preview; the species list is populated
from the payload detections only in the authenticated-processing result
record, while the report-refresh update leaves the species list unchanged. -/
theorem processed_record_defaults_and_species
    (img : SelectedImage) (idx : ℕ) (resp : PredictionResponse) (rimg : ReportImage)
    (hconf : resp.results.average_confidence = none)
    (hdet : resp.results.num_detections = none)
    (htime : resp.results.processing_time = none)
    (hurl : resp.results_url = none) :
    (mkRealResult img idx resp).confidence = 0
    ∧ (mkRealResult img idx resp).detectedAreas = 0
    ∧ (mkRealResult img idx resp).processingTime = 0
    ∧ (mkRealResult img idx resp).outputImage = img.preview
    ∧ (mkRealResult img idx resp).species
        = extractSpeciesFromDetections (resp.results.detections.getD [])
    ∧ (updateImageProcessed resp rimg).confidence = 0
    ∧ (updateImageProcessed resp rimg).detectedAreas = 0
    ∧ (updateImageProcessed resp rimg).processingTime = 0
    ∧ (updateImageProcessed resp rimg).outputImage = rimg.inputImage
    ∧ (updateImageProcessed resp rimg).species = rimg.species := by
  simp [mkRealResult, updateImageProcessed, hconf, hdet, htime, hurl, jsOr]

/-- C7 witness: the defaulting behavior evaluated at a payload with all
numeric fields and the results url missing. -/
theorem processed_record_defaults_and_species_witness :
    (mkRealResult imgA 0 respProcessed).confidence = 0
    ∧ (updateImageProcessed respProcessed rimg0).species = rimg0.species := by
  have h := processed_record_defaults_and_species imgA 0 respProcessed rimg0 rfl rfl rfl rfl
  exact ⟨h.1, h.2.2.2.2.2.2.2.2.2⟩

/-- C8 counterexample: scheduling is not equivalent to the presence of a
non-terminal image.  A collection holding a report with an image in status
processing satisfies the non-terminal test, yet when the user is not logged
in the effect returns early and installs no interval. -/
theorem auto_refresh_not_scheduled_when_logged_out :
    autoRefreshScheduled false [repProcessing] = false
    ∧ hasProcessingReports [repProcessing] = true := by
  decide

/-- C8 (amended): the 30-second interval is installed if and only if the
user is logged in and at least one image across the reports has status
uploaded or processing. -/
theorem auto_refresh_scheduled_iff_logged_in_nonterminal
    (isLoggedIn : Bool) (rs : List Report) :
    (autoRefreshScheduled isLoggedIn rs = true ↔
      (isLoggedIn = true ∧ ∃ r ∈ rs, ∃ img ∈ r.images,
        img.status = "uploaded" ∨ img.status = "processing"))
    ∧ autoRefreshIntervalMs = 30000 := by
  refine ⟨?_, rfl⟩
  simp [autoRefreshScheduled, hasProcessingReports, List.any_eq_true, Bool.and_eq_true,
    Bool.or_eq_true, beq_iff_eq]

/-- C8 witness: the equivalence applied at a logged-in state holding one
processing image. -/
theorem auto_refresh_scheduled_iff_logged_in_nonterminal_witness :
    autoRefreshScheduled true [repProcessing] = true := by
  exact (auto_refresh_scheduled_iff_logged_in_nonterminal true [repProcessing]).1.mpr
    ⟨rfl, repProcessing, by decide, rimgProcessing, by decide, by decide⟩

/-- C9: whenever a report fetch fails, on the normal and on the silent
path alike, whether by a thrown request or by a response whose success flag
is false, the cached report collection is replaced by the empty list and
the failure message is recorded; the prior cache is discarded. -/
theorem fetch_failure_clears_cached_reports
    (o : Except String ReportsResponse) (now : ℕ) (st : ReportsState) (m : String)
    (hfail : fetchFailureMessage o = some m) :
    (fetchReports true o now st).1.reports = []
    ∧ (fetchReports true o now st).1.error = some m
    ∧ (silentRefreshReports true o now st).1.reports = []
    ∧ (silentRefreshReports true o now st).1.error = some m := by
  cases o with
  | error e =>
    simp only [fetchFailureMessage, Option.some.injEq] at hfail
    subst hfail
    simp [fetchReports, silentRefreshReports]
  | ok resp =>
    by_cases h : resp.success = true
    · simp [fetchFailureMessage, h] at hfail
    · simp [fetchFailureMessage, h] at hfail
      subst hfail
      simp [fetchReports, silentRefreshReports, h]

/-- C9 witness: a thrown fetch discards a non-empty cached collection and
records the message. -/
theorem fetch_failure_clears_cached_reports_witness :
    (fetchReports true (Except.error "network down") 0 stCached).1.reports = []
    ∧ (fetchReports true (Except.error "network down") 0 stCached).1.error = some "network down" := by
  have h := fetch_failure_clears_cached_reports (Except.error "network down") 0 stCached
    "network down" rfl
  exact ⟨h.1, h.2.1⟩

/-- C10: for a non-empty upload batch, addNewReport builds a report whose
submission identifier is the first image's image_id, whose id is the
Date.now() timestamp, with status processing, every contained image in
status uploaded with zero confidence, detected-area count and processing
time, and prepends it to the collection. -/
theorem addNewReport_front_insertion_shape
    (first : UploadResultItem) (rest : List UploadResultItem) (prev : List Report)
    (nowMs : ℕ) (dateStr timeStr nowIso : String) :
    ∃ nr : Report,
      addNewReport (first :: rest) nowMs dateStr timeStr nowIso prev = nr :: prev
      ∧ nr.submission_id = first.image_id
      ∧ nr.id = nowMs
      ∧ nr.status = "processing"
      ∧ nr.image_count = (first :: rest).length
      ∧ ∀ img ∈ nr.images,
          img.status = "uploaded" ∧ img.confidence = 0
          ∧ img.detectedAreas = 0 ∧ img.processingTime = 0 := by
  refine ⟨_, rfl, rfl, rfl, rfl, rfl, ?_⟩
  intro img hmem
  simp only [List.mem_map] at hmem
  obtain ⟨src, hsrc, rfl⟩ := hmem
  simp [uploadItemToReportImage]

/-- C10 witness: the construction evaluated on a concrete one-image batch. -/
theorem addNewReport_front_insertion_shape_witness :
    (addNewReport [upItem1] 99 "2025-10-11" "12:30" "iso" []).length = 1 := by
  obtain ⟨nr, h, _⟩ := addNewReport_front_insertion_shape upItem1 [] [] 99 "2025-10-11" "12:30" "iso"
  rw [h]
  rfl

end ForestGuardian
